import Mathlib

/-!
Verification development for the Project Configuration Delivery & Quota Gate
of the abby repository (route `makeProjectDataRoute`, exercised by
`apps/web/src/api/routes/v1_project_data.test.ts`).

The production route module itself is not present in the source tree; only its
test file is. The core pipeline (Quota Gate, Aggregator, Renderer) is therefore
modelled from the specification, with the test file pinning the concrete
observable behavior (status codes, response shapes, the exact script string,
and collaborator invocation counts).
-/

namespace Abby

/-- Plan limits attached to a subscription plan, as returned by the Usage
Tracker (`EventService.getEventsForCurrentPeriod`). -/
structure PlanLimits where
  eventsPerMonth : Nat
  environments : Nat
  flags : Nat
  tests : Nat
deriving DecidableEq, Repr

/-- Usage status for the current period: event count, plan tier and the plan
limits, as produced by the Usage Tracker. -/
structure UsageStatus where
  events : Nat
  is80PercentOfLimit : Bool
  plan : String
  planLimits : PlanLimits
deriving DecidableEq, Repr

/-- Identifies a project and an environment within it. -/
structure ProjectScope where
  projectId : String
  environment : String
deriving DecidableEq, Repr

/-- A decimal number `mant / 10 ^ exp`: the shallow embedding of the numeric
values flowing through the route (Prisma `Decimal` chances read through
`toNumber`, and NUMBER-typed flag values parsed from their raw string). -/
structure DecimalNum where
  mant : Int
  exp : Nat
deriving DecidableEq, Repr

/-- The type of a feature flag: partitions flag value records between the
`flags` and `remoteConfig` sections of the response. -/
inductive FlagType where
  | BOOLEAN
  | NUMBER
  | STRING
deriving DecidableEq, Repr

/-- A flag definition joined onto a flag value record. -/
structure FlagDefinition where
  name : String
  type : FlagType
deriving DecidableEq, Repr

/-- A raw flag value record fetched for one environment: the value is stored
as a raw string and coerced according to the joined flag definition type. -/
structure FlagValueRecord where
  environmentId : String
  flagId : String
  value : String
  flag : FlagDefinition
deriving DecidableEq, Repr

/-- One option of an experiment, with its weight (a decimal fraction). -/
structure OptionWeight where
  chance : DecimalNum
deriving DecidableEq, Repr

/-- An experiment (A/B test) definition with its ordered option sequence. -/
structure ExperimentDefinition where
  id : String
  name : String
  options : List OptionWeight
deriving DecidableEq, Repr

/-- A coerced flag value in the normalized response: boolean, number or
string. -/
inductive FlagVal where
  | b (x : Bool)
  | num (q : DecimalNum)
  | str (s : String)
deriving DecidableEq, Repr

/-- One entry of the `tests` section of the normalized response. -/
structure TestEntry where
  name : String
  weights : List DecimalNum
deriving DecidableEq, Repr

/-- One entry of the `flags` or `remoteConfig` section of the normalized
response. -/
structure FlagEntry where
  name : String
  value : FlagVal
deriving DecidableEq, Repr

/-- The single canonical response shape produced per allowed request and
consumed by both render modes. -/
structure NormalizedResponse where
  tests : List TestEntry
  flags : List FlagEntry
  remoteConfig : List FlagEntry
deriving DecidableEq, Repr

/-- Modelled from the spec: coercion of a BOOLEAN-typed raw flag value.
Raw `"true"` and `"false"` (case-sensitive) coerce to the corresponding
boolean; any other raw value is a data-integrity error (the record is
skipped, the recommended default policy of the spec). -/
def coerceBoolean (v : String) : Option Bool :=
  if v = "true" then some true
  else if v = "false" then some false
  else none

/-- Parse a run of decimal digits, accumulating into `acc`; any non-digit
character fails the parse. -/
def parseDigitsAux : List Char → Nat → Option Nat
  | [], acc => some acc
  | c :: cs, acc =>
      if c.isDigit then parseDigitsAux cs (acc * 10 + (c.toNat - 48)) else none

/-- Parse a nonempty run of decimal digits as a natural number. -/
def parseNatStr : List Char → Option Nat
  | [] => none
  | cs => parseDigitsAux cs 0

/-- Split a character list at the first decimal point, if any. -/
def breakAtDot : List Char → List Char × Option (List Char)
  | [] => ([], none)
  | c :: cs =>
      if c = '.' then ([], some cs)
      else
        let r := breakAtDot cs
        (c :: r.1, r.2)

/-- Parse an unsigned decimal literal (integer digits with an optional
fractional part) into a `DecimalNum`. -/
def parseDecimalChars (cs : List Char) : Option DecimalNum :=
  let br := breakAtDot cs
  match br.2 with
  | none => (parseNatStr br.1).map fun n => ⟨n, 0⟩
  | some fp =>
      match parseNatStr br.1, parseNatStr fp with
      | some n, some f => some ⟨n * 10 ^ fp.length + f, fp.length⟩
      | _, _ => none

/-- Modelled from the spec: parsing of a NUMBER-typed raw flag value as a
numeric value (optional leading minus sign, integer digits, optional
fractional digits). A value that fails to parse is a data-integrity error. -/
def parseDecimal (s : String) : Option DecimalNum :=
  match s.data with
  | '-' :: rest => (parseDecimalChars rest).map fun d => ⟨-d.mant, d.exp⟩
  | cs => parseDecimalChars cs

/-- Modelled from the spec: classification of one flag value record into the
`flags` section. BOOLEAN records are coerced to booleans, STRING records pass
the raw string through unchanged, NUMBER records never land in `flags`. -/
def transformToFlagsEntry (r : FlagValueRecord) : Option FlagEntry :=
  match r.flag.type with
  | .BOOLEAN =>
      match coerceBoolean r.value with
      | some b => some ⟨r.flag.name, .b b⟩
      | none => none
  | .NUMBER => none
  | .STRING => some ⟨r.flag.name, .str r.value⟩

/-- Modelled from the spec: classification of one flag value record into the
`remoteConfig` section. Only NUMBER records land there, with their raw string
parsed as a number. -/
def transformToRemoteConfigEntry (r : FlagValueRecord) : Option FlagEntry :=
  match r.flag.type with
  | .NUMBER => (parseDecimal r.value).map (fun q => ⟨r.flag.name, .num q⟩)
  | _ => none

/-- Modelled from the spec: the Aggregator's `buildResponse`. Experiments map
to `\x7bname, weights\x7d` entries preserving option order; flag value
records are classified by flag type into `flags` and `remoteConfig`,
preserving fetch order. -/
def buildResponse (experiments : List ExperimentDefinition)
    (flagValues : List FlagValueRecord) : NormalizedResponse :=
  { tests := experiments.map (fun e => ⟨e.name, e.options.map (fun o => o.chance)⟩)
    flags := flagValues.filterMap transformToFlagsEntry
    remoteConfig := flagValues.filterMap transformToRemoteConfigEntry }

/-- Strip factors of ten shared between the mantissa and the exponent, so
that the rendered decimal carries no trailing fractional zeros. -/
def stripZeros : Int → Nat → Int × Nat
  | m, 0 => (m, 0)
  | m, Nat.succ e => if m % 10 = 0 then stripZeros (m / 10) e else (m, Nat.succ e)

/-- Left-pad a digit string with zeros up to width `e`. -/
def padZeros (s : String) (e : Nat) : String :=
  String.mk (List.replicate (e - s.length) '0') ++ s

/-- Render a `DecimalNum` the way `JSON.stringify` renders the corresponding
JavaScript number: sign, integer part, and — when the value is not an
integer — a decimal point followed by the fractional digits. -/
def decToString (x : DecimalNum) : String :=
  let me := stripZeros x.mant x.exp
  let m := me.1
  let e := me.2
  let sign := if m < 0 then "-" else ""
  let a := m.natAbs
  if e = 0 then sign ++ toString a
  else
    let p := 10 ^ e
    sign ++ toString (a / p) ++ "." ++ padZeros (toString (a % p)) e

/-- The separator between JSON array elements. -/
def commaSep : String := ","

/-- Escape one character for a JSON string literal. -/
def jsonEscapeChar (c : Char) : String :=
  if c = '"' then "\\\""
  else if c = '\\' then "\\\\"
  else String.singleton c

/-- Serialize a string as a JSON string literal. -/
def jsonString (s : String) : String :=
  "\"" ++ String.join (s.data.map jsonEscapeChar) ++ "\""

/-- Serialize a coerced flag value as JSON. -/
def serializeFlagVal : FlagVal → String
  | .b true => "true"
  | .b false => "false"
  | .num q => decToString q
  | .str s => jsonString s

/-- Serialize one `tests` entry as JSON, keys in order `name`, `weights`. -/
def serializeTestEntry (t : TestEntry) : String :=
  "\x7b\"name\":" ++ jsonString t.name ++ ",\"weights\":["
    ++ String.intercalate commaSep (t.weights.map decToString) ++ "]\x7d"

/-- Serialize one `flags` or `remoteConfig` entry as JSON, keys in order
`name`, `value`. -/
def serializeFlagEntry (f : FlagEntry) : String :=
  "\x7b\"name\":" ++ jsonString f.name ++ ",\"value\":"
    ++ serializeFlagVal f.value ++ "\x7d"

/-- Modelled from the spec: structured-mode serialization of the normalized
response, with exactly the three top-level keys in the order `tests`,
`flags`, `remoteConfig`. -/
def serializeResponse (r : NormalizedResponse) : String :=
  "\x7b\"tests\":[" ++ String.intercalate commaSep (r.tests.map serializeTestEntry)
    ++ "],\"flags\":[" ++ String.intercalate commaSep (r.flags.map serializeFlagEntry)
    ++ "],\"remoteConfig\":[" ++ String.intercalate commaSep (r.remoteConfig.map serializeFlagEntry)
    ++ "]\x7d"

/-- The fixed global-assignment head of script-mode output (the identifier and
the assignment sign), as pinned by the inline snapshot of the test file. -/
def scriptAssignHead : String := "window.__abby_data__ = "

/-- Modelled from the spec and the test snapshot: script-mode rendering
embeds the structured-mode serialization after the fixed global assignment
head (the snapshot shows no trailing semicolon). -/
def renderScript (r : NormalizedResponse) : String :=
  scriptAssignHead ++ serializeResponse r

/-- The error message of the quota-rejection body. -/
def quotaErrorMessage : String := "Plan limit reached"

/-- The requested representation: structured JSON or embeddable script. -/
inductive RenderMode where
  | structured
  | script
deriving DecidableEq, Repr

/-- The body of an HTTP-level response of the route: an error body carrying
the `error` key, a structured data body, a script text body, or an opaque
server-error body with no structured payload. -/
inductive Body where
  | errorBody (msg : String)
  | dataBody (r : NormalizedResponse)
  | scriptBody (s : String)
  | serverErrorBody
deriving DecidableEq, Repr

/-- Whether the body carries the `error` indicator key. -/
def Body.hasErrorKey : Body → Bool
  | .errorBody _ => true
  | _ => false

/-- The observable outcome of one request: HTTP status, body, and the number
of Overage Reporter invocations and Event Emitter event names issued before
the response is returned. -/
structure RequestOutcome where
  status : Nat
  body : Body
  overageReports : Nat
  emittedEvents : List String
deriving DecidableEq, Repr

/-- Modelled from the spec: the whole request pipeline of
`makeProjectDataRoute` (Quota Gate, Aggregator, Renderer), shared by both the
structured route and the `script.js` route. The Usage Tracker result is an
input; `Except.error` models the tracker being unreachable (fail-closed with
a ServiceUnavailable-class status). Rejection happens when the event count
reaches or exceeds the plan limit, invokes the Overage Reporter exactly once
and returns 429 with an error body; an allowed request aggregates, emits the
`after-data-request` event exactly once and renders per mode. -/
def handleRequest (_scope : ProjectScope) (usage : Except Unit UsageStatus)
    (experiments : List ExperimentDefinition) (flagValues : List FlagValueRecord)
    (mode : RenderMode) : RequestOutcome :=
  match usage with
  | .error _ =>
      { status := 503, body := .serverErrorBody, overageReports := 0, emittedEvents := [] }
  | .ok u =>
      if u.planLimits.eventsPerMonth ≤ u.events then
        { status := 429, body := .errorBody quotaErrorMessage
          overageReports := 1, emittedEvents := [] }
      else
        let r := buildResponse experiments flagValues
        { status := 200
          body := match mode with
            | .structured => .dataBody r
            | .script => .scriptBody (renderScript r)
          overageReports := 0
          emittedEvents := ["after-data-request"] }

/-! Concrete fixtures mirroring the mocks of `v1_project_data.test.ts`. -/

/-- The project/environment scope used by the tests. -/
def testScope : ProjectScope := ⟨"test", "test"⟩

/-- The default Usage Tracker mock: zero events against a 100000 limit. -/
def usageDefault : UsageStatus :=
  ⟨0, false, "PRO", ⟨100000, 100, 100, 100⟩⟩

/-- The overage Usage Tracker mock: five events against a limit of one. -/
def usageOver : UsageStatus :=
  ⟨5, false, "PRO", ⟨1, 100, 100, 100⟩⟩

/-- The mocked experiment list: one test named `First Test` with four options
of chance 0.25 each. -/
def testExperiments : List ExperimentDefinition :=
  [⟨"", "First Test", [⟨⟨25, 2⟩⟩, ⟨⟨25, 2⟩⟩, ⟨⟨25, 2⟩⟩, ⟨⟨25, 2⟩⟩]⟩]

/-- The mocked flag value list: a BOOLEAN flag `First Flag` with raw value
`"true"` and a NUMBER flag `First Config` with raw value `"2"`. -/
def testFlagValues : List FlagValueRecord :=
  [⟨"", "", "true", ⟨"First Flag", .BOOLEAN⟩⟩,
   ⟨"", "", "2", ⟨"First Config", .NUMBER⟩⟩]

/-- The exact script body asserted by the inline snapshot of the test file. -/
def snapshotScript : String :=
  "window.__abby_data__ = \x7b\"tests\":[\x7b\"name\":\"First Test\",\"weights\":[0.25,0.25,0.25,0.25]\x7d],\"flags\":[\x7b\"name\":\"First Flag\",\"value\":true\x7d],\"remoteConfig\":[\x7b\"name\":\"First Config\",\"value\":2\x7d]\x7d"

set_option maxRecDepth 100000

/-- Claim C1: every request whose usage status reaches or exceeds the plan
limit (the boundary is inclusive) is rejected with status 429 and a body
carrying the error indicator, in either render mode. -/
theorem c1_quota_rejects_at_or_above_limit (scope : ProjectScope)
    (u : UsageStatus) (exps : List ExperimentDefinition)
    (fvs : List FlagValueRecord) (mode : RenderMode)
    (h : u.planLimits.eventsPerMonth ≤ u.events) :
    (handleRequest scope (.ok u) exps fvs mode).status = 429 ∧
    (handleRequest scope (.ok u) exps fvs mode).body.hasErrorKey = true := by
  simp [handleRequest, h, Body.hasErrorKey]

/-- Claim C1 witness: a request with 5 events consumed against a limit of 1
is rejected with status 429 and an error body. -/
theorem c1_witness :
    (handleRequest testScope (.ok usageOver) testExperiments testFlagValues .structured).status = 429 ∧
    (handleRequest testScope (.ok usageOver) testExperiments testFlagValues .structured).body.hasErrorKey = true :=
  c1_quota_rejects_at_or_above_limit testScope usageOver testExperiments
    testFlagValues .structured (by decide)

/-- Claim C2: every request whose usage is strictly below the plan limit gets
status 200 with a body carrying no error indicator, while a rejected request
carries the error indicator — the two response shapes are mutually
exclusive. -/
theorem c2_success_below_limit (scope : ProjectScope) (u : UsageStatus)
    (exps : List ExperimentDefinition) (fvs : List FlagValueRecord)
    (mode : RenderMode) :
    (u.events < u.planLimits.eventsPerMonth →
      (handleRequest scope (.ok u) exps fvs mode).status = 200 ∧
      (handleRequest scope (.ok u) exps fvs mode).body.hasErrorKey = false) ∧
    (u.planLimits.eventsPerMonth ≤ u.events →
      (handleRequest scope (.ok u) exps fvs mode).body.hasErrorKey = true) := by
  refine ⟨fun h => ?_, fun h => ?_⟩
  · cases mode <;> simp [handleRequest, Nat.not_le.mpr h, Body.hasErrorKey]
  · simp [handleRequest, h, Body.hasErrorKey]

/-- Claim C2 witness: the default mock (0 events against a limit of 100000)
gets status 200 with no error key, and the overage mock carries the error
key. -/
theorem c2_witness :
    ((handleRequest testScope (.ok usageDefault) testExperiments testFlagValues .structured).status = 200 ∧
      (handleRequest testScope (.ok usageDefault) testExperiments testFlagValues .structured).body.hasErrorKey = false) ∧
    (handleRequest testScope (.ok usageOver) testExperiments testFlagValues .structured).body.hasErrorKey = true :=
  ⟨(c2_success_below_limit testScope usageDefault testExperiments testFlagValues .structured).1 (by decide),
   (c2_success_below_limit testScope usageOver testExperiments testFlagValues .structured).2 (by decide)⟩

/-- Claim C3: the normalized response has one `tests` entry per experiment,
in order, whose name is the experiment's name and whose weights are exactly
the chances of the experiment's options, positionally — including the empty
case. -/
theorem c3_tests_weights (exps : List ExperimentDefinition)
    (fvs : List FlagValueRecord) :
    ((buildResponse exps fvs).tests).length = exps.length ∧
    ∀ (i : Nat) (hi : i < exps.length)
      (hi2 : i < ((buildResponse exps fvs).tests).length),
      ((buildResponse exps fvs).tests.get ⟨i, hi2⟩).name = (exps.get ⟨i, hi⟩).name ∧
      ((buildResponse exps fvs).tests.get ⟨i, hi2⟩).weights
        = ((exps.get ⟨i, hi⟩).options).map (fun o => o.chance) := by
  refine ⟨by simp [buildResponse], fun i hi hi2 => ?_⟩
  simp [buildResponse, List.get_eq_getElem, List.getElem_map]

/-- Claim C3 witness: on the mocked experiment, the single `tests` entry is
named `First Test` and its weights are the four 0.25 chances in order. -/
theorem c3_witness :
    ((buildResponse testExperiments testFlagValues).tests.get ⟨0, by decide⟩).name = "First Test" ∧
    ((buildResponse testExperiments testFlagValues).tests.get ⟨0, by decide⟩).weights
      = [⟨25, 2⟩, ⟨25, 2⟩, ⟨25, 2⟩, ⟨25, 2⟩] := by
  have h := (c3_tests_weights testExperiments testFlagValues).2 0 (by decide) (by decide)
  exact ⟨h.1.trans (by decide), h.2.trans (by decide)⟩

/-- Claim C4: classification by flag type — a BOOLEAN record with raw
`"true"` or `"false"` lands in `flags` as the corresponding boolean, a
NUMBER record contributes nothing to `flags` and lands in `remoteConfig`
with its raw string parsed as a number, and a STRING record passes its raw
string through unchanged into `flags`. -/
theorem c4_flag_classification (exps : List ExperimentDefinition)
    (fvs : List FlagValueRecord) (r : FlagValueRecord) (hr : r ∈ fvs) :
    (r.flag.type = .BOOLEAN → r.value = "true" →
      (⟨r.flag.name, .b true⟩ : FlagEntry) ∈ (buildResponse exps fvs).flags) ∧
    (r.flag.type = .BOOLEAN → r.value = "false" →
      (⟨r.flag.name, .b false⟩ : FlagEntry) ∈ (buildResponse exps fvs).flags) ∧
    (r.flag.type = .NUMBER → transformToFlagsEntry r = none ∧
      ∀ q, parseDecimal r.value = some q →
        (⟨r.flag.name, .num q⟩ : FlagEntry) ∈ (buildResponse exps fvs).remoteConfig) ∧
    (r.flag.type = .STRING →
      (⟨r.flag.name, .str r.value⟩ : FlagEntry) ∈ (buildResponse exps fvs).flags) := by
  refine ⟨fun ht hv => ?_, fun ht hv => ?_, fun ht => ⟨?_, fun q hq => ?_⟩, fun ht => ?_⟩
  · exact List.mem_filterMap.mpr ⟨r, hr, by simp [transformToFlagsEntry, ht, hv, coerceBoolean]⟩
  · exact List.mem_filterMap.mpr ⟨r, hr, by simp [transformToFlagsEntry, ht, hv, coerceBoolean]⟩
  · simp [transformToFlagsEntry, ht]
  · exact List.mem_filterMap.mpr ⟨r, hr, by simp [transformToRemoteConfigEntry, ht, hq]⟩
  · exact List.mem_filterMap.mpr ⟨r, hr, by simp [transformToFlagsEntry, ht]⟩

/-- Claim C4 witness: the mocked BOOLEAN record lands in `flags` as boolean
true and the mocked NUMBER record lands in `remoteConfig` as the number 2. -/
theorem c4_witness :
    (⟨"First Flag", .b true⟩ : FlagEntry) ∈ (buildResponse testExperiments testFlagValues).flags ∧
    (⟨"First Config", .num ⟨2, 0⟩⟩ : FlagEntry) ∈ (buildResponse testExperiments testFlagValues).remoteConfig := by
  refine ⟨?_, ?_⟩
  · exact (c4_flag_classification testExperiments testFlagValues
      ⟨"", "", "true", ⟨"First Flag", .BOOLEAN⟩⟩ (by decide)).1 rfl rfl
  · exact ((c4_flag_classification testExperiments testFlagValues
      ⟨"", "", "2", ⟨"First Config", .NUMBER⟩⟩ (by decide)).2.2.1 rfl).2 ⟨2, 0⟩ (by decide)

/-- Claim C5: for the same inputs, the script-mode body embeds, after the
fixed assignment head, exactly the serialization of the same normalized
response that the structured-mode body carries — byte-for-byte parity of the
two render modes. -/
theorem c5_render_parity (scope : ProjectScope) (u : UsageStatus)
    (exps : List ExperimentDefinition) (fvs : List FlagValueRecord)
    (h : u.events < u.planLimits.eventsPerMonth) :
    (handleRequest scope (.ok u) exps fvs .structured).body
      = Body.dataBody (buildResponse exps fvs) ∧
    (handleRequest scope (.ok u) exps fvs .script).body
      = Body.scriptBody (scriptAssignHead ++ serializeResponse (buildResponse exps fvs)) := by
  constructor <;> simp [handleRequest, Nat.not_le.mpr h, renderScript]

/-- Claim C5 witness: on the mocked inputs, the structured body carries the
normalized response whose serialization is exactly what the script body
embeds after the assignment head. -/
theorem c5_witness :
    (handleRequest testScope (.ok usageDefault) testExperiments testFlagValues .structured).body
      = Body.dataBody (buildResponse testExperiments testFlagValues) ∧
    (handleRequest testScope (.ok usageDefault) testExperiments testFlagValues .script).body
      = Body.scriptBody (scriptAssignHead ++ serializeResponse (buildResponse testExperiments testFlagValues)) :=
  c5_render_parity testScope usageDefault testExperiments testFlagValues (by decide)

/-- Claim C6: the Overage Reporter is invoked exactly once per rejected
request (recorded in the outcome before it is returned) and zero times per
allowed request, in either render mode. -/
theorem c6_overage_reporting (scope : ProjectScope) (u : UsageStatus)
    (exps : List ExperimentDefinition) (fvs : List FlagValueRecord)
    (mode : RenderMode) :
    (u.planLimits.eventsPerMonth ≤ u.events →
      (handleRequest scope (.ok u) exps fvs mode).overageReports = 1) ∧
    (u.events < u.planLimits.eventsPerMonth →
      (handleRequest scope (.ok u) exps fvs mode).overageReports = 0) := by
  refine ⟨fun h => ?_, fun h => ?_⟩
  · simp [handleRequest, h]
  · cases mode <;> simp [handleRequest, Nat.not_le.mpr h]

/-- Claim C6 witness: the overage mock reports exactly once; the default
mock reports zero times. -/
theorem c6_witness :
    (handleRequest testScope (.ok usageOver) testExperiments testFlagValues .script).overageReports = 1 ∧
    (handleRequest testScope (.ok usageDefault) testExperiments testFlagValues .script).overageReports = 0 :=
  ⟨(c6_overage_reporting testScope usageOver testExperiments testFlagValues .script).1 (by decide),
   (c6_overage_reporting testScope usageDefault testExperiments testFlagValues .script).2 (by decide)⟩

/-- Claim C7: the Event Emitter is invoked exactly once per allowed request,
with the fixed event name `after-data-request`, regardless of render mode,
and zero times per rejected request. -/
theorem c7_event_emission (scope : ProjectScope) (u : UsageStatus)
    (exps : List ExperimentDefinition) (fvs : List FlagValueRecord)
    (mode : RenderMode) :
    (u.events < u.planLimits.eventsPerMonth →
      (handleRequest scope (.ok u) exps fvs mode).emittedEvents = ["after-data-request"]) ∧
    (u.planLimits.eventsPerMonth ≤ u.events →
      (handleRequest scope (.ok u) exps fvs mode).emittedEvents = []) := by
  refine ⟨fun h => ?_, fun h => ?_⟩
  · cases mode <;> simp [handleRequest, Nat.not_le.mpr h]
  · simp [handleRequest, h]

/-- Claim C7 witness: the default mock emits the single `after-data-request`
event in both modes; the overage mock emits nothing. -/
theorem c7_witness :
    (handleRequest testScope (.ok usageDefault) testExperiments testFlagValues .structured).emittedEvents
      = ["after-data-request"] ∧
    (handleRequest testScope (.ok usageDefault) testExperiments testFlagValues .script).emittedEvents
      = ["after-data-request"] ∧
    (handleRequest testScope (.ok usageOver) testExperiments testFlagValues .structured).emittedEvents = [] :=
  ⟨(c7_event_emission testScope usageDefault testExperiments testFlagValues .structured).1 (by decide),
   (c7_event_emission testScope usageDefault testExperiments testFlagValues .script).1 (by decide),
   (c7_event_emission testScope usageOver testExperiments testFlagValues .structured).2 (by decide)⟩

/-- Claim C8: when the Usage Tracker fails, the whole request fails closed
with the ServiceUnavailable status 503 — a 5xx status, never a success, an
opaque server-error body with no data, no overage report and no event. -/
theorem c8_tracker_failure_fails_closed (scope : ProjectScope)
    (exps : List ExperimentDefinition) (fvs : List FlagValueRecord)
    (mode : RenderMode) :
    (handleRequest scope (.error ()) exps fvs mode).status = 503 ∧
    500 ≤ (handleRequest scope (.error ()) exps fvs mode).status ∧
    (handleRequest scope (.error ()) exps fvs mode).body = Body.serverErrorBody ∧
    (handleRequest scope (.error ()) exps fvs mode).overageReports = 0 ∧
    (handleRequest scope (.error ()) exps fvs mode).emittedEvents = [] := by
  simp [handleRequest]

/-- Claim C9 counterexample: on the mocked inputs, the script body is the
snapshot string, whose final character is the closing brace — there is no
trailing semicolon, contradicting the claimed `... ;` form. -/
theorem c9_counterexample :
    (handleRequest testScope (.ok usageDefault) testExperiments testFlagValues .script).body
      = Body.scriptBody snapshotScript ∧
    snapshotScript.data.getLast? = some '\x7d' ∧
    (snapshotScript.data.getLast? == some ';') = false := by
  refine ⟨by decide, by decide, by decide⟩

/-- If the second part of a string concatenation ends with a character, so
does the whole concatenation. -/
theorem string_append_getLast (s t : String) (c : Char)
    (h : t.data.getLast? = some c) : (s ++ t).data.getLast? = some c := by
  rw [String.data_append, List.getLast?_append, h]
  rfl

/-- Claim C9 as amended: every successful script-mode request produces the
fixed global-assignment head followed by the serialized normalized response,
with no trailing semicolon (the serialization ends with the closing
brace). -/
theorem c9_script_shape (scope : ProjectScope) (u : UsageStatus)
    (exps : List ExperimentDefinition) (fvs : List FlagValueRecord)
    (h : u.events < u.planLimits.eventsPerMonth) :
    (handleRequest scope (.ok u) exps fvs .script).body
      = Body.scriptBody (scriptAssignHead ++ serializeResponse (buildResponse exps fvs)) ∧
    ((scriptAssignHead ++ serializeResponse (buildResponse exps fvs)).data.getLast?
      == some ';') = false := by
  constructor
  · simp [handleRequest, Nat.not_le.mpr h, renderScript]
  · have hser : (serializeResponse (buildResponse exps fvs)).data.getLast? = some '\x7d' := by
      simp only [serializeResponse]
      exact string_append_getLast _ _ _ (by decide)
    have hall : (scriptAssignHead ++ serializeResponse (buildResponse exps fvs)).data.getLast?
        = some '\x7d' := string_append_getLast _ _ _ hser
    rw [hall]
    rfl

/-- Claim C9 witness: the amended shape at the mocked inputs. -/
theorem c9_witness :
    (handleRequest testScope (.ok usageDefault) testExperiments testFlagValues .script).body
      = Body.scriptBody (scriptAssignHead ++ serializeResponse (buildResponse testExperiments testFlagValues)) ∧
    ((scriptAssignHead ++ serializeResponse (buildResponse testExperiments testFlagValues)).data.getLast?
      == some ';') = false :=
  c9_script_shape testScope usageDefault testExperiments testFlagValues (by decide)

/-- Claim C10: the fixed global-assignment identifier is exactly
`window.__abby_data__`, and on the concrete mocked scenario the script body
is byte-for-byte the snapshot string with top-level keys in the order
`tests`, `flags`, `remoteConfig`. -/
theorem c10_script_snapshot :
    (handleRequest testScope (.ok usageDefault) testExperiments testFlagValues .script).body
      = Body.scriptBody snapshotScript ∧
    snapshotScript = "window.__abby_data__" ++ " = "
      ++ serializeResponse (buildResponse testExperiments testFlagValues) := by
  exact ⟨by decide, by decide⟩

end Abby
